import Mathlib

/-!
Verification development for the `sails-model-builder` module.

The repository contains two near-duplicate drafts of the same module:
`src/sails-model-builder.js` (embedded below in namespace `Draft1`) and
`src/unnamed/part_001` (embedded in namespace `Draft2`).  Each draft is a
fluent builder for a model descriptor (an `attributes` mapping plus one
trampoline function per lifecycle name) together with a lifecycle-event
dispatcher built on top of an event manager.

Shared definitions below model the JavaScript/lodash primitives both drafts
use: JavaScript objects with insertion-ordered string keys (`updateAssoc`,
`assocLookup`), lodash `_.extend` (`extendProps`), and lodash's coercion of a
string source of `_.extend` into its indexed characters (`stringIndexProps`).
The per-draft namespaces transcribe the draft's own functions.
-/

/-- A JavaScript property value stored inside an attribute descriptor:
a string, a number, a boolean, or a function (identified opaquely by an id,
e.g. the uuid default-value generator). -/
inductive PropValue where
  | str (s : String)
  | int (n : Int)
  | bool (b : Bool)
  | func (id : Nat)
deriving DecidableEq, Repr

/-- A JavaScript object's own enumerable string-keyed properties, in
insertion order. -/
abbrev PropList := List (String × PropValue)

/-- JavaScript property assignment `o[k] = v`: overwrites the value in place
when the key exists (keeping its position, as JS objects do), otherwise
appends the new key at the end. -/
def updateAssoc {α : Type} (l : List (String × α)) (k : String) (v : α) :
    List (String × α) :=
  match l with
  | [] => [(k, v)]
  | (k1, v1) :: rest =>
    if k1 = k then (k, v) :: rest else (k1, v1) :: updateAssoc rest k v

/-- JavaScript property read `o[k]`: the first binding of the key, if any. -/
def assocLookup {α : Type} (l : List (String × α)) (k : String) : Option α :=
  match l with
  | [] => none
  | (k1, v1) :: rest => if k1 = k then some v1 else assocLookup rest k

/-- lodash `_.extend(dest, src)` on plain property mappings: each own
property of `src` is assigned onto `dest`, in `src`'s key order. -/
def extendProps (dest src : PropList) : PropList :=
  src.foldl (fun d p => updateAssoc d p.1 p.2) dest

/-- lodash coerces a string source of `_.extend` to an object, whose own
enumerable keys are the character indexes: `_.extend(o, "ty")` assigns
`o["0"] = "t"` and `o["1"] = "y"`. -/
def stringIndexProps (s : String) : PropList :=
  s.data.enum.map (fun p => (Nat.repr p.1, PropValue.str (String.singleton p.2)))

/-- One attribute's descriptor.  In JavaScript this is either a plain object
(property mapping) or a function object; a function object can additionally
carry properties assigned onto it.  `funcId = some i` records that the
descriptor is the function with opaque identity `i` (`_.isFunction` is true
exactly then); `props` are its own enumerable properties. -/
structure AttrDescriptor where
  funcId : Option Nat
  props : PropList
deriving DecidableEq, Repr

/-- The model descriptor's `attributes` object: attribute name to attribute
descriptor, in insertion order. -/
abbrev AttrStore := List (String × AttrDescriptor)

/-- The eight fixed sails lifecycle names, as listed in both drafts. -/
def lifecycles : List String :=
  ["beforeValidate", "afterValidate", "beforeCreate", "afterCreate",
   "beforeUpdate", "afterUpdate", "beforeDestroy", "afterDestroy"]

/-- A raw model descriptor as supplied by the caller of `create` /
`model(...)`: it may lack an `attributes` object; `extra` are its other
properties (e.g. `tableName`). -/
structure ModelDesc where
  attributes : Option AttrStore
  extra : PropList
deriving DecidableEq, Repr

/-- The working model maintained by the builder: its `attributes` object,
its other properties, and the list of lifecycle names for which a trampoline
function has been installed on it (by `setUpLifecycleEvents` /
`setupLifecycleEvents`). -/
structure Model where
  attributes : AttrStore
  extra : PropList
  installed : List String
deriving DecidableEq, Repr

/-- What a builder method returns: the builder itself (`return this`,
enabling chaining) or the working model (the getter overload of `model`). -/
inductive BuilderRet where
  | builder
  | modelVal (m : Model)
deriving DecidableEq, Repr

/-- A public builder operation, one per call shape discussed by the spec:
the three `attr` overloads, `require`, the key helpers, setting the model,
and `export`. -/
inductive BuilderOp where
  | setModel (d : ModelDesc)
  | attrMap (attributes : List (String × AttrDescriptor))
  | attrShared (names : List String) (sharedProperties : PropList)
  | attrThree (name propertyName : String) (value : PropValue)
  | requireAttrs (names : Option (List String))
  | uuidKey
  | intKey (autoIncrement : Option Bool)
  | exportTo
deriving DecidableEq, Repr

/-- Whether an operation is the three-positional-argument `attr` overload. -/
def BuilderOp.isAttrThree : BuilderOp → Bool
  | .attrThree _ _ _ => true
  | _ => false

/-! Lifecycle handler model.  A handler subscribed to a lifecycle receives
`(instance, wrappedCb, adopt)`.  We model a handler as the sequence of
observable actions it performs on those two capabilities during the
synchronous handler pass (`sync`) and later, after asynchronous work
(`async`); `work` stands for any computation that touches neither. -/

/-- A JavaScript value passed to a continuation. -/
inductive JSValue where
  | undef
  | str (s : String)
  | num (n : Int)
deriving DecidableEq, Repr

/-- An observable event of one trampoline invocation: a handler side effect,
a call of `adopt`, or an invocation of the original framework continuation
`cb` with the given argument list. -/
inductive Ev where
  | work (n : Nat)
  | adoptCalled
  | cbCall (args : List JSValue)
deriving DecidableEq, Repr

/-- One action a handler can take with the capabilities it is passed. -/
inductive HandlerStep where
  | work (n : Nat)
  | adopt
  | callWrapped (args : List JSValue)
deriving DecidableEq, Repr

/-- Whether a step marks the callback adopted (`adopt()` does; calling the
wrapped continuation does, since its wrapper calls `adopt()` first). -/
def stepAdopts : HandlerStep → Bool
  | .work _ => false
  | .adopt => true
  | .callWrapped _ => true

/-- The events one handler step produces.  `callWrapped args` is the wrapped
continuation `_.wrap(cb, function (fx, message) { adopt(); fx(message); })`:
it first calls `adopt()` and then invokes the original `cb` with exactly one
argument, the first one it was given (`undefined` when given none). -/
def stepEvents : HandlerStep → List Ev
  | .work n => [Ev.work n]
  | .adopt => [Ev.adoptCalled]
  | .callWrapped args => [Ev.adoptCalled, Ev.cbCall [args.headD JSValue.undef]]

/-- Events of a whole step sequence. -/
def traceOfSteps : List HandlerStep → List Ev
  | [] => []
  | st :: rest => stepEvents st ++ traceOfSteps rest

/-- One subscribed handler: its synchronous actions and the actions it takes
later from asynchronous completions. -/
structure Handler where
  sync : List HandlerStep
  async : List HandlerStep
deriving DecidableEq, Repr

/-- Mutable state of one trampoline invocation: the `orphanCallback` flag
captured by the `adopt` closure, and the trace of events so far. -/
structure TState where
  orphanCallback : Bool
  trace : List Ev
deriving DecidableEq, Repr

/-- Result of one trampoline invocation: whether the dispatcher's
end-of-pass rescue `cb()` fired, and the full event trace (synchronous pass
first, then the rescue call if any, then asynchronous completions). -/
structure TriggerResult where
  autoInvoked : Bool
  trace : List Ev
deriving DecidableEq, Repr

/-- The argument list of a continuation-invocation event, if the event is
one. -/
def evCbArgs : Ev → Option (List JSValue)
  | Ev.cbCall args => some args
  | _ => none

/-- The argument lists the original continuation was invoked with, in
order. -/
def cbCalls (r : TriggerResult) : List (List JSValue) :=
  r.trace.filterMap evCbArgs

/-- All synchronous steps of a handler list, in subscription order. -/
def syncSteps (hs : List Handler) : List HandlerStep :=
  (hs.map Handler.sync).flatten

/-- All asynchronous steps of a handler list. -/
def asyncSteps (hs : List Handler) : List HandlerStep :=
  (hs.map Handler.async).flatten

/-- Whether some handler adopted the callback during the synchronous pass. -/
def adoptedDuringPass (hs : List Handler) : Bool :=
  (syncSteps hs).any stepAdopts

namespace Draft2

/-! Transcription of `src/unnamed/part_001`. -/

/-- Effect of one handler action on the trampoline state: `adopt()` clears
`orphanCallback`; the wrapped continuation clears it and then calls the
original `cb` with its first argument only (`fx(message)`). -/
def execStep (s : TState) : HandlerStep → TState
  | HandlerStep.work n => { s with trace := s.trace ++ [Ev.work n] }
  | HandlerStep.adopt =>
    { orphanCallback := false, trace := s.trace ++ [Ev.adoptCalled] }
  | HandlerStep.callWrapped args =>
    { orphanCallback := false,
      trace := s.trace ++ [Ev.adoptCalled, Ev.cbCall [args.headD JSValue.undef]] }

/-- Run a sequence of handler actions. -/
def runHandlerSteps (s : TState) (steps : List HandlerStep) : TState :=
  steps.foldl execStep s

/-- The trampoline `workingModel[lifecycleName] = function (instance, cb)`:
if no handler is subscribed, call `cb()` immediately; otherwise run every
subscribed handler synchronously (the event manager's `trigger`, in
subscription order), then call `cb()` exactly when `orphanCallback` is still
set; asynchronous completions run afterwards. -/
def trigger (subs : String → List Handler) (lifecycleName : String) :
    TriggerResult :=
  let hs := subs lifecycleName
  if hs.isEmpty then
    { autoInvoked := false, trace := [Ev.cbCall []] }
  else
    let s1 := hs.foldl (fun s h => runHandlerSteps s h.sync)
      { orphanCallback := true, trace := [] }
    let s2 :=
      if s1.orphanCallback then { s1 with trace := s1.trace ++ [Ev.cbCall []] }
      else s1
    let s3 := hs.foldl (fun s h => runHandlerSteps s h.async) s2
    { autoInvoked := s1.orphanCallback, trace := s3.trace }

/-- Overload 1 of `attr`, one entry: read the current attribute (or a fresh
empty object), `_.extend` it with the incoming descriptor unless the
incoming descriptor is a function — a function replaces the stored
descriptor outright — and store it back. -/
def attrMapOne (store : AttrStore) (attributeName : String)
    (incoming : AttrDescriptor) : AttrStore :=
  let currentAttribute := (assocLookup store attributeName).getD ⟨none, []⟩
  let currentAttribute :=
    if incoming.funcId.isNone then
      { currentAttribute with
        props := extendProps currentAttribute.props incoming.props }
    else incoming
  updateAssoc store attributeName currentAttribute

/-- Overload 1 of `attr`: `_.each` over the incoming attributes object. -/
def attrMapStore (store : AttrStore)
    (attributes : List (String × AttrDescriptor)) : AttrStore :=
  attributes.foldl (fun st p => attrMapOne st p.1 p.2) store

/-- Overload 2 of `attr` (three positional arguments): set the one property
on the one attribute's descriptor and return.  This draft returns from the
branch (`return this;`). -/
def attrThreeStore (store : AttrStore) (attributeName propertyName : String)
    (value : PropValue) : AttrStore :=
  let currentAttribute := (assocLookup store attributeName).getD ⟨none, []⟩
  updateAssoc store attributeName
    { currentAttribute with
      props := updateAssoc currentAttribute.props propertyName value }

/-- Overload 3 of `attr`, one name: `_.extend` the attribute's descriptor
with the shared properties (creating it if absent) and store it back. -/
def attrSharedOne (store : AttrStore) (attributeName : String)
    (sharedProperties : PropList) : AttrStore :=
  let currentAttribute := (assocLookup store attributeName).getD ⟨none, []⟩
  updateAssoc store attributeName
    { currentAttribute with
      props := extendProps currentAttribute.props sharedProperties }

/-- Overload 3 of `attr`: `_.each` over the attribute names. -/
def attrSharedStore (store : AttrStore) (names : List String)
    (sharedProperties : PropList) : AttrStore :=
  names.foldl (fun st n => attrSharedOne st n sharedProperties) store

/-- The `model(model)` method.  With no argument it is a getter returning
the working model.  With an argument it assigns the working model, installs
an empty `attributes` object if the descriptor lacks one, re-applies
`setupLifecycleEvents` (installing a trampoline for each of the eight
lifecycle names), and returns the builder. -/
def modelMethod (workingModel : Model) (arg : Option ModelDesc) :
    Model × BuilderRet :=
  match arg with
  | none => (workingModel, BuilderRet.modelVal workingModel)
  | some d =>
    ({ attributes := d.attributes.getD [],
       extra := d.extra,
       installed := lifecycles }, BuilderRet.builder)

/-- `require(...)`: with no arguments use all current attribute names,
otherwise the given list; then `attr(list, { required: true })`. -/
def requireOp (names : Option (List String)) (workingModel : Model) : Model :=
  let attributeNames :=
    match names with
    | none => workingModel.attributes.map Prod.fst
    | some l => l
  { workingModel with
    attributes := attrSharedStore workingModel.attributes attributeNames
      [("required", PropValue.bool true)] }

/-- The descriptor `uuidKey()` assigns to `attributes.id`; `defaultsTo` is
the uuid generator function. -/
def uuidDesc : AttrDescriptor :=
  ⟨none, [("type", PropValue.str "string"), ("unique", PropValue.bool true),
          ("primaryKey", PropValue.bool true), ("defaultsTo", PropValue.func 0)]⟩

/-- `uuidKey()`: assign a fresh uuid primary-key descriptor to
`attributes.id`. -/
def uuidKeyOp (workingModel : Model) : Model :=
  { workingModel with
    attributes := updateAssoc workingModel.attributes "id" uuidDesc }

/-- The descriptor `intKey(autoIncrement)` assigns to `attributes.id`;
`autoIncrement` defaults to `true` when the argument is `undefined`. -/
def intDesc (autoIncrement : Option Bool) : AttrDescriptor :=
  ⟨none, [("type", PropValue.str "integer"), ("unique", PropValue.bool true),
          ("primaryKey", PropValue.bool true),
          ("autoIncrement", PropValue.bool (autoIncrement.getD true))]⟩

/-- `intKey(autoIncrement)`: assign a fresh integer primary-key descriptor
to `attributes.id`. -/
def intKeyOp (autoIncrement : Option Bool) (workingModel : Model) : Model :=
  { workingModel with
    attributes := updateAssoc workingModel.attributes "id" (intDesc autoIncrement) }

/-- Builder state: the working model and the values handed to `export` so
far. -/
structure State where
  workingModel : Model
  exported : List Model
deriving DecidableEq, Repr

/-- Initial state of this draft: `workingModel = { attributes: {} }`, no
lifecycle trampolines installed yet (they are installed by `model(...)`). -/
def initState : State :=
  ⟨{ attributes := [], extra := [], installed := [] }, []⟩

/-- One public builder operation on the state. -/
def applyOp (s : State) : BuilderOp → State
  | BuilderOp.setModel d =>
    { s with workingModel := (modelMethod s.workingModel (some d)).1 }
  | BuilderOp.attrMap m =>
    { s with workingModel :=
      { s.workingModel with
        attributes := attrMapStore s.workingModel.attributes m } }
  | BuilderOp.attrShared names shared =>
    { s with workingModel :=
      { s.workingModel with
        attributes := attrSharedStore s.workingModel.attributes names shared } }
  | BuilderOp.attrThree name propertyName value =>
    { s with workingModel :=
      { s.workingModel with
        attributes :=
          attrThreeStore s.workingModel.attributes name propertyName value } }
  | BuilderOp.requireAttrs names =>
    { s with workingModel := requireOp names s.workingModel }
  | BuilderOp.uuidKey =>
    { s with workingModel := uuidKeyOp s.workingModel }
  | BuilderOp.intKey autoIncrement =>
    { s with workingModel := intKeyOp autoIncrement s.workingModel }
  | BuilderOp.exportTo =>
    { s with exported := s.exported ++ [s.workingModel] }

/-- Run a sequence of public builder operations. -/
def run : List BuilderOp → State → State
  | [], s => s
  | op :: rest, s => run rest (applyOp s op)

end Draft2

namespace Draft1

/-! Transcription of `src/sails-model-builder.js`. -/

/-- Effect of one handler action on the trampoline state; the trampoline
code in this draft is character-for-character the same as in `Draft2`. -/
def execStep (s : TState) : HandlerStep → TState
  | HandlerStep.work n => { s with trace := s.trace ++ [Ev.work n] }
  | HandlerStep.adopt =>
    { orphanCallback := false, trace := s.trace ++ [Ev.adoptCalled] }
  | HandlerStep.callWrapped args =>
    { orphanCallback := false,
      trace := s.trace ++ [Ev.adoptCalled, Ev.cbCall [args.headD JSValue.undef]] }

/-- Run a sequence of handler actions. -/
def runHandlerSteps (s : TState) (steps : List HandlerStep) : TState :=
  steps.foldl execStep s

/-- The trampoline `modelBuilder.currentModel[lc] = function (instance, cb)`
installed by `setUpLifecycleEvents`; same code as `Draft2.trigger`. -/
def trigger (subs : String → List Handler) (lifecycleName : String) :
    TriggerResult :=
  let hs := subs lifecycleName
  if hs.isEmpty then
    { autoInvoked := false, trace := [Ev.cbCall []] }
  else
    let s1 := hs.foldl (fun s h => runHandlerSteps s h.sync)
      { orphanCallback := true, trace := [] }
    let s2 :=
      if s1.orphanCallback then { s1 with trace := s1.trace ++ [Ev.cbCall []] }
      else s1
    let s3 := hs.foldl (fun s h => runHandlerSteps s h.async) s2
    { autoInvoked := s1.orphanCallback, trace := s3.trace }

/-- Overload 1 of `attr`, one entry (same code as `Draft2.attrMapOne`). -/
def attrMapOne (store : AttrStore) (attributeName : String)
    (incoming : AttrDescriptor) : AttrStore :=
  let currentAttribute := (assocLookup store attributeName).getD ⟨none, []⟩
  let currentAttribute :=
    if incoming.funcId.isNone then
      { currentAttribute with
        props := extendProps currentAttribute.props incoming.props }
    else incoming
  updateAssoc store attributeName currentAttribute

/-- Overload 1 of `attr`. -/
def attrMapStore (store : AttrStore)
    (attributes : List (String × AttrDescriptor)) : AttrStore :=
  attributes.foldl (fun st p => attrMapOne st p.1 p.2) store

/-- Overload 3 of `attr`, one name (same code as `Draft2.attrSharedOne`). -/
def attrSharedOne (store : AttrStore) (attributeName : String)
    (sharedProperties : PropList) : AttrStore :=
  let currentAttribute := (assocLookup store attributeName).getD ⟨none, []⟩
  updateAssoc store attributeName
    { currentAttribute with
      props := extendProps currentAttribute.props sharedProperties }

/-- Overload 3 of `attr`. -/
def attrSharedStore (store : AttrStore) (names : List String)
    (sharedProperties : PropList) : AttrStore :=
  names.foldl (fun st n => attrSharedOne st n sharedProperties) store

/-- Overload 2 of `attr` in this draft.  Unlike `Draft2.attrThreeStore`,
the `arguments.length === 3` branch has no `return this;`, so after setting
the one property, execution falls through to the shared-properties branch:
`attributes` (the name) is wrapped in an array and the descriptor is
`_.extend`ed with `sharedProperties` — which here is the *property-name
string*, whose indexed characters lodash copies as properties. -/
def attrThreeStore (store : AttrStore) (attributeName propertyName : String)
    (value : PropValue) : AttrStore :=
  let currentAttribute := (assocLookup store attributeName).getD ⟨none, []⟩
  let store1 := updateAssoc store attributeName
    { currentAttribute with
      props := updateAssoc currentAttribute.props propertyName value }
  attrSharedStore store1 [attributeName] (stringIndexProps propertyName)

/-- `create(model)`: default the argument to `{}` when falsy, assign it as
the current model, install an empty `attributes` object if it lacks one,
call `setUpLifecycleEvents`, and return the builder. -/
def createOp (arg : Option ModelDesc) : Model × BuilderRet :=
  let d := arg.getD ⟨none, []⟩
  ({ attributes := d.attributes.getD [],
     extra := d.extra,
     installed := lifecycles }, BuilderRet.builder)

/-- `require(...)` (same behavior as `Draft2.requireOp`). -/
def requireOp (names : Option (List String)) (currentModel : Model) : Model :=
  let attributeNames :=
    match names with
    | none => currentModel.attributes.map Prod.fst
    | some l => l
  { currentModel with
    attributes := attrSharedStore currentModel.attributes attributeNames
      [("required", PropValue.bool true)] }

/-- `uuidKey()` (same assignment as `Draft2.uuidKeyOp`). -/
def uuidKeyOp (currentModel : Model) : Model :=
  { currentModel with
    attributes := updateAssoc currentModel.attributes "id" Draft2.uuidDesc }

/-- `intKey(autoIncrement)` (same assignment as `Draft2.intKeyOp`). -/
def intKeyOp (autoIncrement : Option Bool) (currentModel : Model) : Model :=
  { currentModel with
    attributes :=
      updateAssoc currentModel.attributes "id" (Draft2.intDesc autoIncrement) }

/-- Builder state of this draft: `currentModel` starts out `undefined`
(`none`) until `create` is called; `export` hands over whatever
`currentModel` holds, possibly `undefined`. -/
structure State where
  currentModel : Option Model
  exported : List (Option Model)
deriving DecidableEq, Repr

/-- Initial state: no current model, nothing exported. -/
def initState : State := ⟨none, []⟩

/-- One public builder operation.  Attribute operations read
`currentModel.attributes`; on a builder whose `create` has not run they
throw a `TypeError` (modelled as `none`).  `export` never throws. -/
def applyOp (s : State) : BuilderOp → Option State
  | BuilderOp.setModel d =>
    some { s with currentModel := some (createOp (some d)).1 }
  | BuilderOp.attrMap m =>
    s.currentModel.map fun wm =>
      { s with
        currentModel :=
          some ({ wm with attributes := attrMapStore wm.attributes m }) }
  | BuilderOp.attrShared names shared =>
    s.currentModel.map fun wm =>
      { s with
        currentModel :=
          some ({ wm with
            attributes := attrSharedStore wm.attributes names shared }) }
  | BuilderOp.attrThree name propertyName value =>
    s.currentModel.map fun wm =>
      { s with
        currentModel :=
          some ({ wm with
            attributes := attrThreeStore wm.attributes name propertyName value }) }
  | BuilderOp.requireAttrs names =>
    s.currentModel.map fun wm =>
      { s with currentModel := some (requireOp names wm) }
  | BuilderOp.uuidKey =>
    s.currentModel.map fun wm =>
      { s with currentModel := some (uuidKeyOp wm) }
  | BuilderOp.intKey autoIncrement =>
    s.currentModel.map fun wm =>
      { s with currentModel := some (intKeyOp autoIncrement wm) }
  | BuilderOp.exportTo =>
    some { s with exported := s.exported ++ [s.currentModel] }

/-- Run a sequence of public builder operations; `none` models an uncaught
`TypeError` aborting the chain. -/
def run : List BuilderOp → State → Option State
  | [], s => some s
  | op :: rest, s =>
    match applyOp s op with
    | none => none
    | some s1 => run rest s1

end Draft1

/-! Helper lemmas. -/

theorem assocLookup_updateAssoc_self {α : Type} (l : List (String × α))
    (k : String) (v : α) : assocLookup (updateAssoc l k v) k = some v := by
  induction l with
  | nil => simp [updateAssoc, assocLookup]
  | cons p rest ih =>
    obtain ⟨k1, v1⟩ := p
    by_cases hk : k1 = k
    · simp [updateAssoc, assocLookup, hk]
    · simp [updateAssoc, assocLookup, hk, ih]

theorem assocLookup_updateAssoc_ne {α : Type} (l : List (String × α))
    (k k2 : String) (v : α) (hne : k2 ≠ k) :
    assocLookup (updateAssoc l k v) k2 = assocLookup l k2 := by
  have hkk : k ≠ k2 := Ne.symm hne
  induction l with
  | nil => simp [updateAssoc, assocLookup, hkk]
  | cons p rest ih =>
    obtain ⟨k1, v1⟩ := p
    simp only [updateAssoc]
    by_cases hk : k1 = k
    · subst hk
      simp [assocLookup, hkk]
    · simp [assocLookup, hk, ih]

theorem traceOfSteps_append (a b : List HandlerStep) :
    traceOfSteps (a ++ b) = traceOfSteps a ++ traceOfSteps b := by
  induction a with
  | nil => simp [traceOfSteps]
  | cons st rest ih => simp [traceOfSteps, ih]

theorem Draft2.runHandlerSteps_spec (steps : List HandlerStep) (s : TState) :
    Draft2.runHandlerSteps s steps =
      { orphanCallback := s.orphanCallback && !(steps.any stepAdopts),
        trace := s.trace ++ traceOfSteps steps } := by
  induction steps generalizing s with
  | nil => simp [Draft2.runHandlerSteps, traceOfSteps]
  | cons st rest ih =>
    have hstep : Draft2.runHandlerSteps s (st :: rest) =
        Draft2.runHandlerSteps (Draft2.execStep s st) rest := rfl
    rw [hstep, ih]
    cases st <;>
      simp [Draft2.execStep, traceOfSteps, stepEvents, stepAdopts, Bool.and_assoc]

theorem Draft2.foldHandlers_spec (proj : Handler → List HandlerStep)
    (hs : List Handler) (s : TState) :
    hs.foldl (fun s h => Draft2.runHandlerSteps s (proj h)) s =
      { orphanCallback := s.orphanCallback && !(((hs.map proj).flatten).any stepAdopts),
        trace := s.trace ++ traceOfSteps ((hs.map proj).flatten) } := by
  induction hs generalizing s with
  | nil => simp [traceOfSteps]
  | cons h rest ih =>
    rw [List.foldl_cons, ih, Draft2.runHandlerSteps_spec]
    simp [List.any_append, traceOfSteps_append, Bool.not_or, Bool.and_assoc,
      List.append_assoc]

/-- The events produced by a run of pure-`work` steps contain no invocation
of the continuation. -/
theorem cbArgs_traceOfSteps_work (ws : List Nat) :
    (traceOfSteps (ws.map HandlerStep.work)).filterMap evCbArgs = [] := by
  induction ws with
  | nil => simp [traceOfSteps]
  | cons w rest ih => simp [traceOfSteps, stepEvents, evCbArgs, ih]

theorem work_steps_no_adopt (ws : List Nat) :
    (ws.map HandlerStep.work).any stepAdopts = false := by
  induction ws with
  | nil => rfl
  | cons w rest ih => simp [stepAdopts, ih]

/-- The drafts' `attr`, `require` and key-helper functions other than the
three-argument overload are the same function. -/
theorem drafts_attrMapStore_eq : Draft1.attrMapStore = Draft2.attrMapStore := rfl

theorem drafts_attrSharedStore_eq :
    Draft1.attrSharedStore = Draft2.attrSharedStore := rfl

theorem drafts_requireOp_eq : Draft1.requireOp = Draft2.requireOp := rfl

theorem drafts_uuidKeyOp_eq : Draft1.uuidKeyOp = Draft2.uuidKeyOp := rfl

theorem drafts_intKeyOp_eq : Draft1.intKeyOp = Draft2.intKeyOp := rfl

/-- Core of the draft-equivalence proof: once both drafts hold the same
working model, every operation sequence avoiding the three-argument `attr`
overload keeps them in lock-step. -/
theorem draftRun_rel (ops : List BuilderOp)
    (hops : ∀ op ∈ ops, op.isAttrThree = false) :
    ∀ (m : Model) (ex : List Model),
    Draft1.run ops ⟨some m, ex.map some⟩ =
      some ⟨some (Draft2.run ops ⟨m, ex⟩).workingModel,
            (Draft2.run ops ⟨m, ex⟩).exported.map some⟩ := by
  induction ops with
  | nil => intro m ex; rfl
  | cons op rest ih =>
    intro m ex
    have hop : op.isAttrThree = false := hops op (List.mem_cons_self op rest)
    have hrest : ∀ op2 ∈ rest, op2.isAttrThree = false :=
      fun op2 h2 => hops op2 (List.mem_cons_of_mem op h2)
    cases op with
    | setModel d =>
      show Draft1.run rest ⟨some (Draft1.createOp (some d)).1, ex.map some⟩ = _
      exact ih hrest _ ex
    | attrMap m2 =>
      show Draft1.run rest ⟨some _, ex.map some⟩ = _
      exact ih hrest _ ex
    | attrShared names shared =>
      show Draft1.run rest ⟨some _, ex.map some⟩ = _
      exact ih hrest _ ex
    | attrThree name p v => simp [BuilderOp.isAttrThree] at hop
    | requireAttrs names =>
      show Draft1.run rest ⟨some _, ex.map some⟩ = _
      exact ih hrest _ ex
    | uuidKey =>
      show Draft1.run rest ⟨some _, ex.map some⟩ = _
      exact ih hrest _ ex
    | intKey auto =>
      show Draft1.run rest ⟨some _, ex.map some⟩ = _
      exact ih hrest _ ex
    | exportTo =>
      show Draft1.run rest ⟨some m, ex.map some ++ [some m]⟩ = _
      have hmap : ex.map some ++ [some m] = (ex ++ [m]).map some := by
        simp
      rw [hmap]
      exact ih hrest m (ex ++ [m])

theorem ite_tstate_trace (b o : Bool) (t e : List Ev) :
    (if b = true then ({ orphanCallback := o, trace := t ++ e } : TState)
     else { orphanCallback := o, trace := t }).trace =
      t ++ (if b = true then e else []) := by
  cases b <;> simp

theorem ite_not_swap {α : Type} (b : Bool) (x y : α) :
    (if (!b) = true then x else y) = if b = true then y else x := by
  cases b <;> simp

/-- Closed form of one trampoline invocation with a nonempty handler list:
the synchronous pass's events come first, then the rescue `cb()` exactly
when no synchronous step adopted, then the asynchronous completions. -/
theorem Draft2.trigger_spec (subs : String → List Handler) (lc : String)
    (h0 : Handler) (rest : List Handler) (hsubs : subs lc = h0 :: rest) :
    Draft2.trigger subs lc =
      { autoInvoked := !adoptedDuringPass (h0 :: rest),
        trace := traceOfSteps (syncSteps (h0 :: rest)) ++
          (if adoptedDuringPass (h0 :: rest) then [] else [Ev.cbCall []]) ++
          traceOfSteps (asyncSteps (h0 :: rest)) } := by
  simp only [Draft2.trigger, hsubs, List.isEmpty_cons, Bool.false_eq_true,
    if_false, Draft2.foldHandlers_spec, Bool.true_and, List.nil_append,
    adoptedDuringPass, syncSteps, asyncSteps]
  rw [ite_tstate_trace, ite_not_swap, List.append_assoc]

/-- C1: for every lifecycle name with at least one subscribed handler,
triggering the trampoline runs all subscribed handlers synchronously (their
events come first in the trace, in subscription order) and then invokes the
original continuation exactly when no handler adopted it during the pass
(by calling `adopt` or the wrapped continuation); in particular a handler
that does nothing (only `work` steps) still yields exactly one continuation
invocation at the end of the synchronous pass, and a handler that calls
`adopt()` and returns suppresses the end-of-pass invocation, the
continuation firing exactly once when the handler later invokes it. -/
theorem C1_trampoline_dispatch :
    (∀ (subs : String → List Handler) (lc : String), lc ∈ lifecycles →
      subs lc ≠ [] →
      (Draft2.trigger subs lc).trace =
        traceOfSteps (syncSteps (subs lc)) ++
          (if adoptedDuringPass (subs lc) then [] else [Ev.cbCall []]) ++
          traceOfSteps (asyncSteps (subs lc)) ∧
      ((Draft2.trigger subs lc).autoInvoked = true ↔
        adoptedDuringPass (subs lc) = false)) ∧
    (∀ (subs : String → List Handler) (lc : String) (ws : List Nat),
      lc ∈ lifecycles →
      subs lc = [⟨ws.map HandlerStep.work, []⟩] →
      cbCalls (Draft2.trigger subs lc) = [[]] ∧
      (Draft2.trigger subs lc).autoInvoked = true) ∧
    (∀ (subs : String → List Handler) (lc : String) (args : List JSValue),
      lc ∈ lifecycles →
      subs lc = [⟨[HandlerStep.adopt], [HandlerStep.callWrapped args]⟩] →
      (Draft2.trigger subs lc).autoInvoked = false ∧
      cbCalls (Draft2.trigger subs lc) = [[args.headD JSValue.undef]]) := by
  refine ⟨?_, ?_, ?_⟩
  · intro subs lc hlc hne
    cases hsubs : subs lc with
    | nil => exact absurd hsubs hne
    | cons h0 rest =>
      rw [Draft2.trigger_spec subs lc h0 rest hsubs]
      exact ⟨rfl, by simp [Bool.not_eq_true']⟩
  · intro subs lc ws hlc hsubs
    rw [cbCalls, Draft2.trigger_spec subs lc _ [] hsubs]
    have hA : adoptedDuringPass [(⟨ws.map HandlerStep.work, []⟩ : Handler)] = false := by
      simp [adoptedDuringPass, syncSteps, work_steps_no_adopt ws]
    rw [hA]
    constructor
    · simp [syncSteps, asyncSteps, traceOfSteps, List.filterMap_append,
        cbArgs_traceOfSteps_work, evCbArgs]
    · rfl
  · intro subs lc args hlc hsubs
    rw [cbCalls, Draft2.trigger_spec subs lc _ [] hsubs]
    have hA : adoptedDuringPass
        [(⟨[HandlerStep.adopt], [HandlerStep.callWrapped args]⟩ : Handler)] = true := by
      simp [adoptedDuringPass, syncSteps, stepAdopts]
    rw [hA]
    exact ⟨rfl, by simp [syncSteps, asyncSteps, traceOfSteps, stepEvents, evCbArgs]⟩

/-- Witness for C1 at concrete inputs: a do-nothing handler on
`beforeCreate` yields exactly one end-of-pass invocation with no arguments,
a handler that adopts and later calls the wrapped continuation with "err"
suppresses the end-of-pass invocation and the continuation fires exactly
once with "err", and the general clause at a one-adopting-handler
subscription. -/
theorem C1_trampoline_dispatch_witness :
    (cbCalls (Draft2.trigger (fun _ => [⟨[HandlerStep.work 5], []⟩]) "beforeCreate") = [[]] ∧
     (Draft2.trigger (fun _ => [⟨[HandlerStep.work 5], []⟩]) "beforeCreate").autoInvoked = true) ∧
    ((Draft2.trigger (fun _ => [⟨[HandlerStep.adopt], [HandlerStep.callWrapped [JSValue.str "err"]]⟩]) "beforeCreate").autoInvoked = false ∧
     cbCalls (Draft2.trigger (fun _ => [⟨[HandlerStep.adopt], [HandlerStep.callWrapped [JSValue.str "err"]]⟩]) "beforeCreate") = [[JSValue.str "err"]]) ∧
    ((Draft2.trigger (fun _ => [⟨[HandlerStep.adopt], []⟩]) "beforeCreate").autoInvoked = true ↔
      adoptedDuringPass ((fun _ : String => [(⟨[HandlerStep.adopt], []⟩ : Handler)]) "beforeCreate") = false) :=
  ⟨C1_trampoline_dispatch.2.1 (fun _ => [⟨[HandlerStep.work 5], []⟩]) "beforeCreate" [5]
      (by decide) rfl,
   C1_trampoline_dispatch.2.2 (fun _ => [⟨[HandlerStep.adopt], [HandlerStep.callWrapped [JSValue.str "err"]]⟩]) "beforeCreate" [JSValue.str "err"]
      (by decide) rfl,
   (C1_trampoline_dispatch.1 (fun _ => [⟨[HandlerStep.adopt], []⟩]) "beforeCreate"
      (by decide) (by decide)).2⟩

/-- C2: for every lifecycle name with zero subscribed handlers, triggering
the trampoline invokes the continuation exactly once, synchronously, with no
arguments, and no handler runs: the whole result is the single
zero-argument continuation call. -/
theorem C2_trigger_no_handlers (subs : String → List Handler) (lc : String)
    (hlc : lc ∈ lifecycles) (hzero : subs lc = []) :
    Draft2.trigger subs lc = { autoInvoked := false, trace := [Ev.cbCall []] } ∧
    cbCalls (Draft2.trigger subs lc) = [[]] := by
  have h1 : Draft2.trigger subs lc = { autoInvoked := false, trace := [Ev.cbCall []] } := by
    simp [Draft2.trigger, hzero]
  exact ⟨h1, by rw [h1]; rfl⟩

/-- Witness for C2: the `beforeValidate` trampoline with an empty
subscription table. -/
theorem C2_trigger_no_handlers_witness :
    Draft2.trigger (fun _ => []) "beforeValidate" =
      { autoInvoked := false, trace := [Ev.cbCall []] } ∧
    cbCalls (Draft2.trigger (fun _ => []) "beforeValidate") = [[]] :=
  C2_trigger_no_handlers (fun _ => []) "beforeValidate" (by decide) rfl

/-- C3: for every lifecycle name with one handler that invokes the wrapped
continuation during the synchronous pass without first calling `adopt`, the
original continuation is invoked exactly once, not twice: the wrapped
continuation marks the invocation adopted before forwarding, so the
end-of-pass auto-invocation is skipped. -/
theorem C3_direct_call_adopts (subs : String → List Handler) (lc : String)
    (args : List JSValue) (hlc : lc ∈ lifecycles)
    (hone : subs lc = [⟨[HandlerStep.callWrapped args], []⟩]) :
    (Draft2.trigger subs lc).autoInvoked = false ∧
    cbCalls (Draft2.trigger subs lc) = [[args.headD JSValue.undef]] ∧
    (Draft2.trigger subs lc).trace =
      [Ev.adoptCalled, Ev.cbCall [args.headD JSValue.undef]] := by
  rw [cbCalls, Draft2.trigger_spec subs lc _ [] hone]
  have hA : adoptedDuringPass
      [(⟨[HandlerStep.callWrapped args], []⟩ : Handler)] = true := by
    simp [adoptedDuringPass, syncSteps, stepAdopts]
  rw [hA]
  refine ⟨rfl, ?_, ?_⟩ <;>
    simp [syncSteps, asyncSteps, traceOfSteps, stepEvents, evCbArgs]

/-- Witness for C3: one `beforeUpdate` handler that calls the wrapped
continuation with an error value. -/
theorem C3_direct_call_adopts_witness :
    (Draft2.trigger (fun _ => [⟨[HandlerStep.callWrapped [JSValue.str "e"]], []⟩]) "beforeUpdate").autoInvoked = false ∧
    cbCalls (Draft2.trigger (fun _ => [⟨[HandlerStep.callWrapped [JSValue.str "e"]], []⟩]) "beforeUpdate") = [[JSValue.str "e"]] ∧
    (Draft2.trigger (fun _ => [⟨[HandlerStep.callWrapped [JSValue.str "e"]], []⟩]) "beforeUpdate").trace =
      [Ev.adoptCalled, Ev.cbCall [JSValue.str "e"]] :=
  C3_direct_call_adopts (fun _ => [⟨[HandlerStep.callWrapped [JSValue.str "e"]], []⟩])
    "beforeUpdate" [JSValue.str "e"] (by decide) rfl

/-- C4 counterexample: the wrapped continuation does not forward "the same
arguments for every arity".  A handler invoking it with the two arguments
"e1", "e2" results in the original continuation receiving the single
argument "e1". -/
theorem C4_counterexample :
    cbCalls (Draft2.trigger
        (fun _ => [⟨[HandlerStep.callWrapped [JSValue.str "e1", JSValue.str "e2"]], []⟩])
        "beforeCreate") = [[JSValue.str "e1"]] ∧
    [[JSValue.str "e1"]] ≠ [[JSValue.str "e1", JSValue.str "e2"]] := by
  decide

/-- C4 as amended: invoking the wrapped continuation first marks the
invocation adopted and then forwards exactly one argument to the original
continuation — the first argument it was invoked with, `undefined` when it
was invoked with none; any further arguments are dropped.  This is the
behavior of `_.wrap(cb, function (fx, message) { adopt(); fx(message); })`
in both drafts. -/
theorem C4_wrapped_forwards_first_argument (s : TState) (args : List JSValue) :
    Draft2.execStep s (HandlerStep.callWrapped args) =
      { orphanCallback := false,
        trace := s.trace ++ [Ev.adoptCalled, Ev.cbCall [args.headD JSValue.undef]] } ∧
    Draft1.execStep s (HandlerStep.callWrapped args) =
      { orphanCallback := false,
        trace := s.trace ++ [Ev.adoptCalled, Ev.cbCall [args.headD JSValue.undef]] } :=
  ⟨rfl, rfl⟩

/-- C5 counterexample: the two drafts are not behaviorally equivalent.
After setting the same model, the three-argument `attr` call
`attr("a", "type", "integer")` leaves different attribute stores: the
`sails-model-builder.js` draft falls through into the shared-properties
branch and additionally copies the characters of "type" as indexed
properties onto attribute `a`, while the `part_001` draft stores exactly
`{ type: "integer" }`. -/
theorem C5_counterexample :
    Draft1.run
        [BuilderOp.setModel ⟨none, []⟩,
         BuilderOp.attrThree "a" "type" (PropValue.str "integer")]
        Draft1.initState ≠
      some
        { currentModel := some (Draft2.run
            [BuilderOp.setModel ⟨none, []⟩,
             BuilderOp.attrThree "a" "type" (PropValue.str "integer")]
            Draft2.initState).workingModel,
          exported := (Draft2.run
            [BuilderOp.setModel ⟨none, []⟩,
             BuilderOp.attrThree "a" "type" (PropValue.str "integer")]
            Draft2.initState).exported.map some } := by
  decide

/-- C5 as amended: the two drafts agree on every sequence of public builder
operations that begins by setting a model (before `create`, the first
draft's current model is undefined and its attribute operations throw) and
avoids the three-argument `attr` overload; and the two drafts' lifecycle
trampolines are the same function, so triggering behaves identically. -/
theorem C5_drafts_equivalent_restricted :
    (∀ (d : ModelDesc) (ops : List BuilderOp),
      (∀ op ∈ ops, op.isAttrThree = false) →
      Draft1.run (BuilderOp.setModel d :: ops) Draft1.initState =
        some
          { currentModel :=
              some (Draft2.run (BuilderOp.setModel d :: ops)
                Draft2.initState).workingModel,
            exported := (Draft2.run (BuilderOp.setModel d :: ops)
                Draft2.initState).exported.map some }) ∧
    Draft1.trigger = Draft2.trigger := by
  constructor
  · intro d ops hops
    exact draftRun_rel ops hops
      { attributes := d.attributes.getD [], extra := d.extra,
        installed := lifecycles } []
  · rfl

/-- Witness for C5 as amended: a `create`/`model` call followed by
`uuidKey()` leaves both drafts in corresponding states. -/
theorem C5_drafts_equivalent_restricted_witness :
    Draft1.run [BuilderOp.setModel ⟨none, []⟩, BuilderOp.uuidKey] Draft1.initState =
      some
        { currentModel :=
            some (Draft2.run [BuilderOp.setModel ⟨none, []⟩, BuilderOp.uuidKey]
              Draft2.initState).workingModel,
          exported := (Draft2.run [BuilderOp.setModel ⟨none, []⟩, BuilderOp.uuidKey]
              Draft2.initState).exported.map some } :=
  C5_drafts_equivalent_restricted.1 ⟨none, []⟩ [BuilderOp.uuidKey] (by decide)

/-- C6: evaluating both drafts' three-argument `attr` overload at the
failing input `attr("a", "type", "integer")` on an empty attribute store.
The `part_001` draft yields exactly `{ type: "integer" }` as documented; the
`sails-model-builder.js` draft, whose three-argument branch is missing
`return this;`, falls through and additionally stores the characters of
"type" under the keys "0".."3". -/
theorem C6_attr_three_evaluated :
    Draft2.attrThreeStore [] "a" "type" (PropValue.str "integer") =
      [("a", ⟨none, [("type", PropValue.str "integer")]⟩)] ∧
    Draft1.attrThreeStore [] "a" "type" (PropValue.str "integer") =
      [("a", ⟨none, [("type", PropValue.str "integer"),
        ("0", PropValue.str "t"), ("1", PropValue.str "y"),
        ("2", PropValue.str "p"), ("3", PropValue.str "e")]⟩)] := by
  decide

/-- C7: the mapping overload of `attr` shallow-merges non-function incoming
descriptors into the stored descriptor (creating it if absent): the
documented two-call example yields exactly
`{ type: "string", maxLength: 45, required: true }`; and a function-valued
incoming descriptor replaces the stored descriptor outright. -/
theorem C7_attr_map_merge :
    (Draft2.attrMapStore
       (Draft2.attrMapStore []
         [("name", ⟨none, [("type", PropValue.str "string"),
           ("maxLength", PropValue.int 45)]⟩)])
       [("name", ⟨none, [("required", PropValue.bool true)]⟩)] =
       [("name", ⟨none, [("type", PropValue.str "string"),
         ("maxLength", PropValue.int 45), ("required", PropValue.bool true)]⟩)]) ∧
    (∀ (store : AttrStore) (name : String) (incoming : AttrDescriptor),
      incoming.funcId = none →
      Draft2.attrMapStore store [(name, incoming)] =
        updateAssoc store name
          { funcId := ((assocLookup store name).getD ⟨none, []⟩).funcId,
            props := extendProps ((assocLookup store name).getD ⟨none, []⟩).props
              incoming.props }) ∧
    (∀ (store : AttrStore) (name : String) (incoming : AttrDescriptor),
      incoming.funcId.isSome = true →
      assocLookup (Draft2.attrMapStore store [(name, incoming)]) name =
        some incoming) := by
  refine ⟨by decide, ?_, ?_⟩
  · intro store name incoming hfun
    simp [Draft2.attrMapStore, Draft2.attrMapOne, hfun]
  · intro store name incoming hfun
    have hne2 : incoming.funcId ≠ none := by
      intro h
      rw [h] at hfun
      simp at hfun
    simp [Draft2.attrMapStore, Draft2.attrMapOne, hne2,
      assocLookup_updateAssoc_self]

/-- Witness for C7: merging `{ required: true }` into a store holding
`{ type: "string" }` under `name`, and replacing attribute `cb` by the
function with id 7. -/
theorem C7_attr_map_merge_witness :
    (Draft2.attrMapStore [("name", ⟨none, [("type", PropValue.str "string")]⟩)]
        [("name", ⟨none, [("required", PropValue.bool true)]⟩)] =
      updateAssoc [("name", ⟨none, [("type", PropValue.str "string")]⟩)] "name"
        { funcId := ((assocLookup
            [("name", (⟨none, [("type", PropValue.str "string")]⟩ : AttrDescriptor))]
            "name").getD ⟨none, []⟩).funcId,
          props := extendProps ((assocLookup
            [("name", (⟨none, [("type", PropValue.str "string")]⟩ : AttrDescriptor))]
            "name").getD ⟨none, []⟩).props
            [("required", PropValue.bool true)] }) ∧
    assocLookup (Draft2.attrMapStore [] [("cb", ⟨some 7, []⟩)]) "cb" =
      some ⟨some 7, []⟩ :=
  ⟨C7_attr_map_merge.2.1 [("name", ⟨none, [("type", PropValue.str "string")]⟩)]
      "name" ⟨none, [("required", PropValue.bool true)]⟩ rfl,
   C7_attr_map_merge.2.2 [] "cb" ⟨some 7, []⟩ rfl⟩

/-- C8: the shared-properties overload (including via `require`) never
clobbers a function-valued stored descriptor: after the merge the value
stored under the attribute name is still the same function, with the shared
properties assigned onto the function object. -/
theorem C8_function_descriptor_preserved (store : AttrStore) (name : String)
    (f : Nat) (ps sharedProperties extra : PropList) (installed : List String)
    (hstored : assocLookup store name = some ⟨some f, ps⟩) :
    assocLookup (Draft2.attrSharedStore store [name] sharedProperties) name =
      some ⟨some f, extendProps ps sharedProperties⟩ ∧
    assocLookup ((Draft2.requireOp (some [name])
        ⟨store, extra, installed⟩).attributes) name =
      some ⟨some f, extendProps ps [("required", PropValue.bool true)]⟩ ∧
    (assocLookup (Draft2.attrSharedStore store [name] sharedProperties)
        name).map AttrDescriptor.funcId = some (some f) := by
  have h1 : assocLookup (Draft2.attrSharedStore store [name] sharedProperties) name =
      some ⟨some f, extendProps ps sharedProperties⟩ := by
    simp [Draft2.attrSharedStore, Draft2.attrSharedOne, hstored,
      assocLookup_updateAssoc_self]
  refine ⟨h1, ?_, by rw [h1]; rfl⟩
  simp [Draft2.requireOp, Draft2.attrSharedStore, Draft2.attrSharedOne, hstored,
    assocLookup_updateAssoc_self]

/-- Witness for C8: attribute `beforeHash` stores the function with id 3;
merging `{ maxLength: 9 }` and requiring it keep the function. -/
theorem C8_function_descriptor_preserved_witness :
    assocLookup (Draft2.attrSharedStore
        [("beforeHash", ⟨some 3, []⟩)] ["beforeHash"]
        [("maxLength", PropValue.int 9)]) "beforeHash" =
      some ⟨some 3, extendProps [] [("maxLength", PropValue.int 9)]⟩ ∧
    assocLookup ((Draft2.requireOp (some ["beforeHash"])
        ⟨[("beforeHash", ⟨some 3, []⟩)], [], []⟩).attributes) "beforeHash" =
      some ⟨some 3, extendProps [] [("required", PropValue.bool true)]⟩ ∧
    (assocLookup (Draft2.attrSharedStore
        [("beforeHash", ⟨some 3, []⟩)] ["beforeHash"]
        [("maxLength", PropValue.int 9)]) "beforeHash").map
      AttrDescriptor.funcId = some (some 3) :=
  C8_function_descriptor_preserved [("beforeHash", ⟨some 3, []⟩)] "beforeHash"
    3 [] [("maxLength", PropValue.int 9)] [] [] rfl

/-- C9: setting a model descriptor makes it the working model, installs an
empty attribute mapping when the descriptor lacks one, re-applies lifecycle
wiring so each of the eight lifecycle names carries a trampoline, and
returns the builder for chaining; `create` in the other draft does exactly
the same. -/
theorem C9_model_setter (workingModel : Model) (d : ModelDesc) :
    ((Draft2.modelMethod workingModel (some d)).1).attributes =
      d.attributes.getD [] ∧
    (d.attributes = none →
      ((Draft2.modelMethod workingModel (some d)).1).attributes = []) ∧
    ((Draft2.modelMethod workingModel (some d)).1).extra = d.extra ∧
    ((Draft2.modelMethod workingModel (some d)).1).installed = lifecycles ∧
    (∀ lc ∈ lifecycles,
      lc ∈ ((Draft2.modelMethod workingModel (some d)).1).installed) ∧
    (Draft2.modelMethod workingModel (some d)).2 = BuilderRet.builder ∧
    Draft1.createOp (some d) = Draft2.modelMethod workingModel (some d) := by
  refine ⟨rfl, ?_, rfl, rfl, ?_, rfl, rfl⟩
  · intro h
    simp [Draft2.modelMethod, h]
  · intro lc hlc
    exact hlc

/-- Witness for C9: setting a descriptor that lacks an `attributes` mapping
installs an empty one, installs the `beforeCreate` trampoline, and returns
the builder. -/
theorem C9_model_setter_witness :
    ((Draft2.modelMethod ⟨[], [], []⟩
        (some ⟨none, [("tableName", PropValue.str "users")]⟩)).1).attributes = [] ∧
    "beforeCreate" ∈ ((Draft2.modelMethod ⟨[], [], []⟩
        (some ⟨none, [("tableName", PropValue.str "users")]⟩)).1).installed ∧
    (Draft2.modelMethod ⟨[], [], []⟩
        (some ⟨none, [("tableName", PropValue.str "users")]⟩)).2 =
      BuilderRet.builder :=
  ⟨(C9_model_setter ⟨[], [], []⟩
      ⟨none, [("tableName", PropValue.str "users")]⟩).2.1 rfl,
   (C9_model_setter ⟨[], [], []⟩
      ⟨none, [("tableName", PropValue.str "users")]⟩).2.2.2.2.1 "beforeCreate"
      (by decide),
   (C9_model_setter ⟨[], [], []⟩
      ⟨none, [("tableName", PropValue.str "users")]⟩).2.2.2.2.2.1⟩

/-- C10: `uuidKey()` and `intKey(autoIncrement)` assign a brand-new
descriptor to the `id` attribute — the result under `id` is exactly the
fresh uuid/integer key descriptor, independent of whatever was stored
before — while every attribute other than `id` is left unchanged; both
drafts perform the same assignment. -/
theorem C10_key_helpers_replace (m : Model) (autoIncrement : Option Bool)
    (other : String) (hother : other ≠ "id") :
    assocLookup ((Draft2.uuidKeyOp m).attributes) "id" = some Draft2.uuidDesc ∧
    assocLookup ((Draft2.intKeyOp autoIncrement m).attributes) "id" =
      some (Draft2.intDesc autoIncrement) ∧
    assocLookup ((Draft2.uuidKeyOp m).attributes) other =
      assocLookup m.attributes other ∧
    assocLookup ((Draft2.intKeyOp autoIncrement m).attributes) other =
      assocLookup m.attributes other ∧
    Draft1.uuidKeyOp m = Draft2.uuidKeyOp m ∧
    Draft1.intKeyOp autoIncrement m = Draft2.intKeyOp autoIncrement m := by
  refine ⟨?_, ?_, ?_, ?_, rfl, rfl⟩
  · exact assocLookup_updateAssoc_self m.attributes "id" Draft2.uuidDesc
  · exact assocLookup_updateAssoc_self m.attributes "id" (Draft2.intDesc autoIncrement)
  · exact assocLookup_updateAssoc_ne m.attributes "id" other Draft2.uuidDesc hother
  · exact assocLookup_updateAssoc_ne m.attributes "id" other
      (Draft2.intDesc autoIncrement) hother

/-- Witness for C10: a model whose `id` attribute previously held
`{ type: "string", maxLength: 8 }` and whose `name` attribute must survive
`uuidKey()` and `intKey(false)`. -/
theorem C10_key_helpers_replace_witness :
    assocLookup ((Draft2.uuidKeyOp
        ⟨[("id", ⟨none, [("type", PropValue.str "string"),
             ("maxLength", PropValue.int 8)]⟩),
          ("name", ⟨none, [("type", PropValue.str "string")]⟩)], [], []⟩).attributes)
      "id" = some Draft2.uuidDesc ∧
    assocLookup ((Draft2.intKeyOp (some false)
        ⟨[("id", ⟨none, [("type", PropValue.str "string"),
             ("maxLength", PropValue.int 8)]⟩),
          ("name", ⟨none, [("type", PropValue.str "string")]⟩)], [], []⟩).attributes)
      "id" = some (Draft2.intDesc (some false)) ∧
    assocLookup ((Draft2.uuidKeyOp
        ⟨[("id", ⟨none, [("type", PropValue.str "string"),
             ("maxLength", PropValue.int 8)]⟩),
          ("name", ⟨none, [("type", PropValue.str "string")]⟩)], [], []⟩).attributes)
      "name" =
      assocLookup
        [("id", (⟨none, [("type", PropValue.str "string"),
             ("maxLength", PropValue.int 8)]⟩ : AttrDescriptor)),
         ("name", ⟨none, [("type", PropValue.str "string")]⟩)] "name" ∧
    assocLookup ((Draft2.intKeyOp (some false)
        ⟨[("id", ⟨none, [("type", PropValue.str "string"),
             ("maxLength", PropValue.int 8)]⟩),
          ("name", ⟨none, [("type", PropValue.str "string")]⟩)], [], []⟩).attributes)
      "name" =
      assocLookup
        [("id", (⟨none, [("type", PropValue.str "string"),
             ("maxLength", PropValue.int 8)]⟩ : AttrDescriptor)),
         ("name", ⟨none, [("type", PropValue.str "string")]⟩)] "name" ∧
    Draft1.uuidKeyOp
        ⟨[("id", ⟨none, [("type", PropValue.str "string"),
             ("maxLength", PropValue.int 8)]⟩),
          ("name", ⟨none, [("type", PropValue.str "string")]⟩)], [], []⟩ =
      Draft2.uuidKeyOp
        ⟨[("id", ⟨none, [("type", PropValue.str "string"),
             ("maxLength", PropValue.int 8)]⟩),
          ("name", ⟨none, [("type", PropValue.str "string")]⟩)], [], []⟩ ∧
    Draft1.intKeyOp (some false)
        ⟨[("id", ⟨none, [("type", PropValue.str "string"),
             ("maxLength", PropValue.int 8)]⟩),
          ("name", ⟨none, [("type", PropValue.str "string")]⟩)], [], []⟩ =
      Draft2.intKeyOp (some false)
        ⟨[("id", ⟨none, [("type", PropValue.str "string"),
             ("maxLength", PropValue.int 8)]⟩),
          ("name", ⟨none, [("type", PropValue.str "string")]⟩)], [], []⟩ :=
  C10_key_helpers_replace
    ⟨[("id", ⟨none, [("type", PropValue.str "string"),
         ("maxLength", PropValue.int 8)]⟩),
      ("name", ⟨none, [("type", PropValue.str "string")]⟩)], [], []⟩
    (some false) "name" (by decide)
